import Mathlib

/-!
Shallow embedding of the damage-to-estimate pricing pipeline of the
`connie` vehicle-reconditioning estimator, together with proofs of the
specification's claims about it.

Embedded source files:
* `src/lib/pricing/vehicle-tiers.ts`    — make → tier → multiplier
* `src/lib/pricing/labor-rates.ts`      — labor tier → multiplier
* `src/lib/pricing/repair-costs.ts`     — static repair / labor / parts tables
* `src/lib/pricing/damage-mapper.ts`    — `getRepairType`, `buildEstimate`
* `src/lib/ebay-parts.ts`               — `searchEbayParts` price reduction
* `src/lib/parts-cache.ts`              — `getPartPrice` three-tier resolution

Modelling conventions: JavaScript numbers are modelled as `ℚ`;
`Math.round x` is `⌊x + 1/2⌋` (JavaScript rounds half toward +∞);
timestamps are `ℚ` (milliseconds); fallible external calls (network,
database) are modelled by `Option`-valued inputs; TypeScript
`Record<string, T>` object literals are association lists looked up with
`List.lookup`; JavaScript truthiness of `string | null` values is made
explicit (`null` and `""` are falsy).
-/

/-- JavaScript `Math.round`: rounds to the nearest integer, halves toward
positive infinity. -/
def mathRound (q : ℚ) : ℚ := ((⌊q + 1/2⌋ : ℤ) : ℚ)

/-- One step of collapsing whitespace runs: `prevWs` records whether the
previous character was part of a whitespace run already replaced by `_`.
Models the JavaScript `replace(/\s+/g, "_")`: each maximal whitespace run
becomes a single underscore. -/
def collapseWsAux : Bool → List Char → List Char
  | _, [] => []
  | prevWs, c :: rest =>
    if c.isWhitespace then
      (if prevWs then [] else ['_']) ++ collapseWsAux true rest
    else
      c :: collapseWsAux false rest

/-- JavaScript `s.toLowerCase().replace(/\s+/g, "_")`, the part/make-name
normalization used throughout the pricing code (lower-casing per
character, as `String.toLowerCase` does on the ASCII names involved). -/
def normalizeName (s : String) : String :=
  (collapseWsAux false (s.toList.map Char.toLower)).asString

/-- Truthiness of a TypeScript `string | null`: `null` and the empty
string are falsy. -/
def isTruthyName : Option String → Bool
  | none => false
  | some s => !(s == "")

/-! ## `src/lib/pricing/vehicle-tiers.ts` -/

/-- `VehicleTier` union type of `vehicle-tiers.ts`. -/
inductive VehicleTier where
  | economy
  | mainstream
  | premium
  | luxury
  | ultra_luxury
deriving DecidableEq

open VehicleTier in
/-- `TIER_MAP` of `vehicle-tiers.ts`. -/
def TIER_MAP : List (String × VehicleTier) := [
  -- Economy
  ("nissan", economy), ("hyundai", economy), ("kia", economy),
  ("mitsubishi", economy), ("suzuki", economy), ("fiat", economy),
  -- Mainstream
  ("toyota", mainstream), ("honda", mainstream), ("ford", mainstream),
  ("chevrolet", mainstream), ("gmc", mainstream), ("dodge", mainstream),
  ("chrysler", mainstream), ("jeep", mainstream), ("ram", mainstream),
  ("subaru", mainstream), ("mazda", mainstream), ("volkswagen", mainstream),
  ("buick", mainstream),
  -- Premium
  ("acura", premium), ("infiniti", premium), ("volvo", premium),
  ("lincoln", premium), ("cadillac", premium), ("mini", premium),
  ("alfa_romeo", premium), ("genesis", premium),
  -- Luxury
  ("bmw", luxury), ("mercedes", luxury), ("mercedes-benz", luxury),
  ("audi", luxury), ("lexus", luxury), ("tesla", luxury), ("jaguar", luxury),
  -- Ultra Luxury
  ("porsche", ultra_luxury), ("land_rover", ultra_luxury),
  ("range rover", ultra_luxury), ("maserati", ultra_luxury),
  ("bentley", ultra_luxury), ("rolls_royce", ultra_luxury),
  ("ferrari", ultra_luxury), ("lamborghini", ultra_luxury),
  ("aston_martin", ultra_luxury)]

/-- `TIER_MULTIPLIERS` of `vehicle-tiers.ts`. -/
def TIER_MULTIPLIERS : VehicleTier → ℚ
  | .economy => 0.85
  | .mainstream => 1.0
  | .premium => 1.3
  | .luxury => 1.6
  | .ultra_luxury => 2.2

/-- `getVehicleTier` of `vehicle-tiers.ts`: normalized make looked up in
`TIER_MAP`, defaulting to `mainstream`. -/
def getVehicleTier (make : String) : VehicleTier :=
  (TIER_MAP.lookup (normalizeName make)).getD .mainstream

/-- `getTierMultiplier` of `vehicle-tiers.ts`. -/
def getTierMultiplier (make : String) : ℚ :=
  TIER_MULTIPLIERS (getVehicleTier make)

/-! ## `src/lib/pricing/labor-rates.ts` -/

/-- `LABOR_RATE_MULTIPLIERS` of `labor-rates.ts`. -/
def LABOR_RATE_MULTIPLIERS : List (String × ℚ) :=
  [("low", 0.8), ("medium", 1.0), ("high", 1.3)]

/-- `getLaborRateMultiplier` of `labor-rates.ts`: unknown tiers default to
`1.0` (the `|| 1.0` fallback; all stored multipliers are nonzero, hence
truthy). -/
def getLaborRateMultiplier (tier : String) : ℚ :=
  (LABOR_RATE_MULTIPLIERS.lookup tier).getD 1.0

/-! ## `src/lib/pricing/repair-costs.ts` -/

/-- `RepairCost` interface of `repair-costs.ts`. -/
structure RepairCost where
  repair_type : String
  description : String
  labor_low : ℚ
  labor_high : ℚ
  materials_low : ℚ
  materials_high : ℚ
deriving DecidableEq

/-- `REPAIR_COSTS` table of `repair-costs.ts` (repair-only operations). -/
def REPAIR_COSTS : List (String × RepairCost) := [
  -- PAINT & SURFACE
  ("touch_up_paint",
    ⟨"touch_up_paint", "Touch-up paint for chips and small scratches",
      30, 75, 15, 40⟩),
  ("scratch_buff_polish",
    ⟨"scratch_buff_polish", "Machine buff and polish to remove light scratches",
      50, 150, 10, 30⟩),
  ("spot_respray_small",
    ⟨"spot_respray_small", "Spot respray for localized damage (< 6 inches)",
      100, 250, 40, 80⟩),
  ("full_panel_respray",
    ⟨"full_panel_respray", "Full panel sand, prime, and respray",
      200, 450, 60, 150⟩),
  ("blend_adjacent_panel",
    ⟨"blend_adjacent_panel", "Blend paint into adjacent panel for color match",
      100, 200, 30, 60⟩),
  ("clear_coat_respray",
    ⟨"clear_coat_respray", "Clear coat repair for peeling or faded clear",
      150, 350, 40, 100⟩),
  -- BODY / DENT
  ("pdr_small",
    ⟨"pdr_small", "Paintless dent repair — small dent (< 2 inches)",
      75, 150, 0, 0⟩),
  ("pdr_large",
    ⟨"pdr_large", "Paintless dent repair — large dent (2-5 inches)",
      150, 300, 0, 0⟩),
  ("body_filler_repair",
    ⟨"body_filler_repair", "Body filler, sand, prime and paint for dent with paint damage",
      200, 500, 40, 100⟩),
  ("bumper_repair_plastic",
    ⟨"bumper_repair_plastic", "Plastic bumper repair (crack/gouge fill and respray)",
      150, 400, 30, 80⟩),
  ("rust_repair_spot",
    ⟨"rust_repair_spot", "Spot rust treatment, sand, prime and paint",
      100, 300, 20, 60⟩),
  ("rust_repair_panel",
    ⟨"rust_repair_panel", "Panel rust repair with cutting, welding, and refinish",
      300, 800, 50, 150⟩),
  -- GLASS
  ("windshield_chip_repair",
    ⟨"windshield_chip_repair", "Windshield chip/crack repair (resin injection)",
      40, 80, 10, 20⟩),
  -- WHEELS
  ("curb_rash_repair",
    ⟨"curb_rash_repair", "Wheel curb rash sand, fill, and refinish (per wheel)",
      75, 150, 15, 40⟩),
  -- INTERIOR
  ("interior_detail_shampoo",
    ⟨"interior_detail_shampoo", "Full interior deep clean and shampoo",
      80, 200, 20, 50⟩),
  ("leather_repair_small",
    ⟨"leather_repair_small", "Small leather/vinyl repair (tear, crack, or discoloration)",
      60, 150, 15, 40⟩),
  ("leather_repair_large",
    ⟨"leather_repair_large", "Large leather panel repair or re-dye",
      150, 350, 30, 80⟩),
  ("carpet_stain_removal",
    ⟨"carpet_stain_removal", "Carpet stain treatment and extraction",
      40, 120, 10, 30⟩),
  ("headliner_repair",
    ⟨"headliner_repair", "Headliner sag repair or partial re-glue",
      100, 250, 20, 50⟩),
  ("seat_burn_repair",
    ⟨"seat_burn_repair", "Cigarette burn or small hole repair in fabric/leather",
      50, 125, 10, 30⟩),
  ("dashboard_repair",
    ⟨"dashboard_repair", "Dashboard crack or damage repair",
      75, 200, 15, 40⟩),
  -- LIGHTS
  ("headlight_restoration",
    ⟨"headlight_restoration", "Headlight lens restoration (sand, polish, UV seal)",
      30, 80, 10, 25⟩),
  -- MECHANICAL COSMETIC
  ("engine_bay_detail",
    ⟨"engine_bay_detail", "Engine bay cleaning and dressing",
      50, 150, 15, 40⟩),
  ("exhaust_tip_polish",
    ⟨"exhaust_tip_polish", "Exhaust tip cleaning and polish",
      15, 40, 5, 10⟩),
  -- FULL VEHICLE
  ("full_exterior_detail",
    ⟨"full_exterior_detail", "Full exterior wash, clay bar, polish, and wax/sealant",
      100, 250, 30, 60⟩)]

/-- Value type of the `INSTALLATION_LABOR` table. -/
structure InstallLabor where
  labor_low : ℚ
  labor_high : ℚ
deriving DecidableEq

/-- `INSTALLATION_LABOR` table of `repair-costs.ts` (labor for part
installation). -/
def INSTALLATION_LABOR : List (String × InstallLabor) := [
  ("front_bumper_cover", ⟨150, 350⟩),
  ("rear_bumper_cover", ⟨150, 350⟩),
  ("fender", ⟨200, 400⟩),
  ("hood", ⟨150, 300⟩),
  ("trunk_lid", ⟨150, 300⟩),
  ("door_shell", ⟨250, 500⟩),
  ("side_mirror", ⟨50, 150⟩),
  ("headlight_assembly", ⟨50, 175⟩),
  ("tail_light_assembly", ⟨40, 125⟩),
  ("grille", ⟨30, 100⟩),
  ("windshield", ⟨100, 250⟩),
  ("rear_window", ⟨100, 250⟩),
  ("door_glass", ⟨75, 200⟩),
  ("wheel_rim", ⟨25, 60⟩),
  ("tire", ⟨20, 40⟩),
  ("rocker_panel", ⟨200, 450⟩),
  ("quarter_panel", ⟨400, 900⟩),
  ("radiator_support", ⟨200, 500⟩),
  ("bumper_reinforcement", ⟨100, 250⟩),
  ("fog_light", ⟨30, 80⟩),
  ("door_handle", ⟨40, 120⟩),
  ("antenna", ⟨20, 60⟩)]

/-- Value type of the `STATIC_PART_PRICES` table. -/
structure StaticPartPrice where
  price_low : ℚ
  price_high : ℚ
deriving DecidableEq

/-- `STATIC_PART_PRICES` table of `repair-costs.ts` (fallback parts
prices for mainstream-tier vehicles). -/
def STATIC_PART_PRICES : List (String × StaticPartPrice) := [
  ("front_bumper_cover", ⟨80, 250⟩),
  ("rear_bumper_cover", ⟨80, 250⟩),
  ("fender", ⟨60, 200⟩),
  ("hood", ⟨150, 400⟩),
  ("trunk_lid", ⟨150, 400⟩),
  ("door_shell", ⟨200, 600⟩),
  ("side_mirror", ⟨30, 120⟩),
  ("headlight_assembly", ⟨50, 200⟩),
  ("tail_light_assembly", ⟨30, 150⟩),
  ("grille", ⟨30, 150⟩),
  ("windshield", ⟨150, 400⟩),
  ("rear_window", ⟨100, 300⟩),
  ("door_glass", ⟨60, 200⟩),
  ("wheel_rim", ⟨80, 250⟩),
  ("tire", ⟨80, 200⟩),
  ("rocker_panel", ⟨40, 150⟩),
  ("quarter_panel", ⟨100, 400⟩),
  ("radiator_support", ⟨60, 200⟩),
  ("bumper_reinforcement", ⟨40, 120⟩),
  ("fog_light", ⟨20, 80⟩),
  ("door_handle", ⟨10, 50⟩),
  ("antenna", ⟨10, 40⟩)]

/-- `getStaticPartPrice` of `repair-costs.ts`: normalized part name looked
up in `STATIC_PART_PRICES`, unknown parts fall back to the generic
`$50-200` range. -/
def getStaticPartPrice (partName : String) (_year : ℤ) (_make _model : String) :
    StaticPartPrice :=
  (STATIC_PART_PRICES.lookup (normalizeName partName)).getD ⟨50, 200⟩

/-! ## `src/lib/pricing/damage-mapper.ts` -/

/-- `DamageItem` interface of `damage-mapper.ts` (a damage observation
produced by the detection step). `severity` is carried as a plain string:
the TypeScript union type is erased at runtime and `getRepairType` is
called with arbitrary strings. -/
structure DamageItem where
  id : String
  location : String
  damage_type : String
  severity : String
  size_estimate : String
  description : String
  requires_part_replacement : Bool
  part_name : Option String
  photo_index : ℤ
deriving DecidableEq

/-- `EstimateLineItem` interface of `damage-mapper.ts`. -/
structure EstimateLineItem where
  id : String
  location : String
  damage_type : String
  severity : String
  description : String
  recommended_repair : String
  parts_cost_low : ℚ
  parts_cost_high : ℚ
  labor_cost_low : ℚ
  labor_cost_high : ℚ
  cost_low : ℚ
  cost_high : ℚ
  pricing_source : String
  is_included : Bool
  photo_index : ℤ
deriving DecidableEq

/-- The two-level `mapping` object local to `getRepairType` in
`damage-mapper.ts`: damage type → severity → repair operation. -/
def damageSeverityMapping : List (String × List (String × String)) := [
  ("scratch", [("minor", "scratch_buff_polish"),
               ("moderate", "spot_respray_small"),
               ("severe", "full_panel_respray")]),
  ("deep_scratch", [("minor", "spot_respray_small"),
                    ("moderate", "full_panel_respray"),
                    ("severe", "full_panel_respray")]),
  ("dent_small", [("minor", "pdr_small"),
                  ("moderate", "pdr_small"),
                  ("severe", "pdr_large")]),
  ("dent_large", [("minor", "pdr_large"),
                  ("moderate", "body_filler_repair"),
                  ("severe", "body_filler_repair")]),
  ("paint_chip", [("minor", "touch_up_paint"),
                  ("moderate", "touch_up_paint"),
                  ("severe", "spot_respray_small")]),
  ("paint_fade", [("minor", "scratch_buff_polish"),
                  ("moderate", "full_panel_respray"),
                  ("severe", "full_panel_respray")]),
  ("clear_coat_peel", [("minor", "clear_coat_respray"),
                       ("moderate", "clear_coat_respray"),
                       ("severe", "full_panel_respray")]),
  ("rust_spot", [("minor", "rust_repair_spot"),
                 ("moderate", "rust_repair_spot"),
                 ("severe", "rust_repair_panel")]),
  ("rust_heavy", [("minor", "rust_repair_panel"),
                  ("moderate", "rust_repair_panel"),
                  ("severe", "rust_repair_panel")]),
  ("crack", [("minor", "bumper_repair_plastic"),
             ("moderate", "bumper_repair_plastic"),
             ("severe", "bumper_repair_plastic")]),
  ("tear", [("minor", "leather_repair_small"),
            ("moderate", "leather_repair_large"),
            ("severe", "leather_repair_large")]),
  ("stain", [("minor", "carpet_stain_removal"),
             ("moderate", "interior_detail_shampoo"),
             ("severe", "interior_detail_shampoo")]),
  ("burn", [("minor", "seat_burn_repair"),
            ("moderate", "seat_burn_repair"),
            ("severe", "leather_repair_large")]),
  ("curb_rash", [("minor", "curb_rash_repair"),
                 ("moderate", "curb_rash_repair"),
                 ("severe", "curb_rash_repair")]),
  ("foggy", [("minor", "headlight_restoration"),
             ("moderate", "headlight_restoration"),
             ("severe", "headlight_restoration")]),
  ("discolored", [("minor", "scratch_buff_polish"),
                  ("moderate", "interior_detail_shampoo"),
                  ("severe", "full_panel_respray")])]

/-- The optional-chained lookup `mapping[damageType]?.[severity]` of
`getRepairType`. -/
def mappingLookup (damageType severity : String) : Option String :=
  (damageSeverityMapping.lookup damageType).bind fun m => m.lookup severity

/-- `getRepairType` of `damage-mapper.ts`:
`mapping[damageType]?.[severity] || "spot_respray_small"` (all mapped
values are non-empty strings, so `||` is the `Option.getD` fallback). The
`location` parameter is accepted and unused, as in the source. -/
def getRepairType (damageType severity _location : String) : String :=
  (mappingLookup damageType severity).getD "spot_respray_small"

/-- The `vehicle` argument of `buildEstimate`. -/
structure Vehicle where
  year : ℤ
  make : String
  model : String
  trim : Option String
deriving DecidableEq

/-- Return type of `getPartPrice` in `parts-cache.ts`. -/
structure PartPriceQuote where
  source : String
  price_low : ℚ
  price_median : ℚ
  price_high : ℚ
deriving DecidableEq

/-- The part-price resolver as seen by `buildEstimate`: the awaited
`getPartPrice(partName, year, make, model, trim)` call, abstracted over
the external cache and marketplace state. -/
abbrev PartPriceFn := String → ℤ → String → String → Option String → PartPriceQuote

/-- The `paintableParts` list local to `buildEstimate`. -/
def paintableParts : List String := [
  "front_bumper_cover", "rear_bumper_cover", "fender", "hood",
  "trunk_lid", "door_shell", "quarter_panel", "rocker_panel"]

/-- The part-replacement branch of the per-item closure inside
`buildEstimate` of `damage-mapper.ts` (taken when
`item.requires_part_replacement && item.part_name` is truthy, so
`item.part_name` is a non-empty string here). -/
def buildEstimatePartPath (getPartPrice : PartPriceFn) (vehicle : Vehicle)
    (tierMultiplier laborMultiplier : ℚ) (item : DamageItem) :
    EstimateLineItem :=
    let pn := item.part_name.getD ""
    let partPrice :=
      getPartPrice pn vehicle.year vehicle.make vehicle.model vehicle.trim
    let pricingSource := partPrice.source
    let partsLow := partPrice.price_low
    let partsHigh := partPrice.price_high
    -- Apply tier multiplier to static parts only (eBay prices already reflect market)
    let partsLow := if partPrice.source == "static"
      then mathRound (partsLow * tierMultiplier) else partsLow
    let partsHigh := if partPrice.source == "static"
      then mathRound (partsHigh * tierMultiplier) else partsHigh
    -- Get installation labor
    let normalizedPart := normalizeName pn
    let installLabor := (INSTALLATION_LABOR.lookup normalizedPart).getD ⟨100, 250⟩
    let laborLow := mathRound (installLabor.labor_low * tierMultiplier * laborMultiplier)
    let laborHigh := mathRound (installLabor.labor_high * tierMultiplier * laborMultiplier)
    -- Add paint labor if body panel
    let paintCost := (REPAIR_COSTS.lookup "full_panel_respray").getD ⟨"", "", 0, 0, 0, 0⟩
    let laborLow := if paintableParts.contains normalizedPart
      then laborLow + mathRound (paintCost.labor_low * tierMultiplier * laborMultiplier)
      else laborLow
    let laborHigh := if paintableParts.contains normalizedPart
      then laborHigh + mathRound (paintCost.labor_high * tierMultiplier * laborMultiplier)
      else laborHigh
    let partsLow := if paintableParts.contains normalizedPart
      then partsLow + paintCost.materials_low else partsLow
    let partsHigh := if paintableParts.contains normalizedPart
      then partsHigh + paintCost.materials_high else partsHigh
    let repairDescription := "Replace " ++ pn ++
      (if paintableParts.contains normalizedPart then " + prime/paint" else "")
    { id := item.id
      location := item.location
      damage_type := item.damage_type
      severity := item.severity
      description := if item.description == "" then "" else item.description
      recommended_repair := repairDescription
      parts_cost_low := partsLow
      parts_cost_high := partsHigh
      labor_cost_low := laborLow
      labor_cost_high := laborHigh
      cost_low := partsLow + laborLow
      cost_high := partsHigh + laborHigh
      pricing_source := pricingSource
      is_included := true
      photo_index := if item.photo_index == 0 then 0 else item.photo_index }

/-- The repair-only branch of the per-item closure inside `buildEstimate`
of `damage-mapper.ts`; it never consults the part-price resolver. -/
def buildEstimateRepairPath (tierMultiplier laborMultiplier : ℚ)
    (item : DamageItem) : EstimateLineItem :=
    let repairType := getRepairType item.damage_type item.severity item.location
    match REPAIR_COSTS.lookup repairType with
    | some repairCost =>
      let laborLow := mathRound (repairCost.labor_low * tierMultiplier * laborMultiplier)
      let laborHigh := mathRound (repairCost.labor_high * tierMultiplier * laborMultiplier)
      { id := item.id
        location := item.location
        damage_type := item.damage_type
        severity := item.severity
        description := if item.description == "" then "" else item.description
        recommended_repair := repairCost.description
        parts_cost_low := repairCost.materials_low
        parts_cost_high := repairCost.materials_high
        labor_cost_low := laborLow
        labor_cost_high := laborHigh
        cost_low := repairCost.materials_low + laborLow
        cost_high := repairCost.materials_high + laborHigh
        pricing_source := "static"
        is_included := true
        photo_index := if item.photo_index == 0 then 0 else item.photo_index }
    | none =>
      { id := item.id
        location := item.location
        damage_type := item.damage_type
        severity := item.severity
        description := if item.description == "" then "" else item.description
        recommended_repair := ""
        parts_cost_low := 0
        parts_cost_high := 0
        labor_cost_low := 0
        labor_cost_high := 0
        cost_low := 0
        cost_high := 0
        pricing_source := "static"
        is_included := true
        photo_index := if item.photo_index == 0 then 0 else item.photo_index }

/-- The body of the per-item closure inside `buildEstimate`
(`damageItems.map(async (item) => ...)`) of `damage-mapper.ts`, with the
part-price resolver passed explicitly:
`if (item.requires_part_replacement && item.part_name)` selects the
part-replacement path, otherwise the repair-only path. -/
def buildEstimateItem (getPartPrice : PartPriceFn) (vehicle : Vehicle)
    (tierMultiplier laborMultiplier : ℚ) (item : DamageItem) :
    EstimateLineItem :=
  if item.requires_part_replacement && isTruthyName item.part_name then
    buildEstimatePartPath getPartPrice vehicle tierMultiplier laborMultiplier item
  else
    buildEstimateRepairPath tierMultiplier laborMultiplier item

/-- `buildEstimate` of `damage-mapper.ts`: one line item per damage
observation, produced by mapping the per-item closure over the input list
(`Promise.all` preserves order and cardinality). -/
def buildEstimate (getPartPrice : PartPriceFn) (damageItems : List DamageItem)
    (vehicle : Vehicle) (laborRateTier : String) : List EstimateLineItem :=
  let tierMultiplier := getTierMultiplier vehicle.make
  let laborMultiplier := getLaborRateMultiplier laborRateTier
  damageItems.map
    (buildEstimateItem getPartPrice vehicle tierMultiplier laborMultiplier)

/-! ## `src/lib/ebay-parts.ts` -/

/-- `EbayPartResult` interface of `ebay-parts.ts`. -/
structure EbayPartResult where
  title : String
  price : ℚ
  currency : String
  condition : String
  itemUrl : String
  imageUrl : Option String
deriving DecidableEq

/-- `PartsPriceResult` interface of `ebay-parts.ts` (`source` is always
the literal `"ebay"` in the source). -/
structure PartsPriceResult where
  source : String
  query : String
  results_count : ℕ
  price_low : ℚ
  price_median : ℚ
  price_high : ℚ
  sample_listings : List EbayPartResult
deriving DecidableEq

/-- One entry of `data.itemSummaries` in the eBay Browse API response, as
read by `searchEbayParts` (`price.value` already parsed to a number;
`thumbnailImages?.[0]?.imageUrl` flattened to an option;
`compatibilityMatch` may be absent). -/
structure EbayItemSummary where
  title : String
  priceValue : ℚ
  priceCurrency : String
  condition : String
  itemWebUrl : String
  thumbnailImageUrl : Option String
  compatibilityMatch : Option String
deriving DecidableEq

/-- Ascending numeric sort, `prices.sort((a, b) => a - b)` of
`ebay-parts.ts`. -/
def sortAsc (l : List ℚ) : List ℚ := l.insertionSort (· ≤ ·)

/-- The compatibility filter of `searchEbayParts`: keep only items marked
`EXACT` or `COMPATIBLE`. -/
def compatQualifies (item : EbayItemSummary) : Bool :=
  item.compatibilityMatch == some "EXACT" ||
    item.compatibilityMatch == some "COMPATIBLE"

/-- The listing record built from one item summary inside
`searchEbayParts` (the `.map((item) => ({...}))` step). -/
def toListing (item : EbayItemSummary) : EbayPartResult :=
  { title := item.title
    price := item.priceValue
    currency := item.priceCurrency
    condition := item.condition
    itemUrl := item.itemWebUrl
    imageUrl := item.thumbnailImageUrl }

/-- `searchEbayParts` of `ebay-parts.ts`. The token fetch, HTTP request
and JSON parse are modelled by the `response` argument: `none` is any
failure (thrown error, non-2xx response, or a body with no
`itemSummaries`), `some items` a successful response carrying
`data.itemSummaries`. After compatibility filtering, a non-empty listing
set is reduced to low/median/high over the ascending-sorted price list
with `medianIndex = Math.floor(prices.length / 2)`. -/
def searchEbayParts (response : Option (List EbayItemSummary))
    (partName : String) (year : ℤ) (make model : String)
    (_trim : Option String) : Option PartsPriceResult :=
  match response with
  | none => none
  | some itemSummaries =>
    if itemSummaries.isEmpty then none
    else
      let listings : List EbayPartResult :=
        (itemSummaries.filter compatQualifies).map toListing
      if listings.isEmpty then none
      else
        let prices := sortAsc (listings.map fun l => l.price)
        let medianIndex := prices.length / 2
        some
          { source := "ebay"
            query := s!"{partName} {year} {make} {model}"
            results_count := listings.length
            price_low := prices.getD 0 0
            price_median := prices.getD medianIndex 0
            price_high := prices.getD (prices.length - 1) 0
            sample_listings := listings.take 5 }

/-! ## `src/lib/parts-cache.ts` -/

/-- A row of the `parts_price_cache` table as read and written by
`parts-cache.ts`. Price columns are nullable; timestamps are numeric
(milliseconds; the ISO-string comparison used in the query is
order-isomorphic to numeric comparison). `raw_data` holds the cached
marketplace result. -/
structure CacheRow where
  cache_key : String
  part_name : String
  year : ℤ
  make : String
  model : String
  source : String
  price_low : Option ℚ
  price_median : Option ℚ
  price_high : Option ℚ
  raw_data : Option PartsPriceResult
  fetched_at : ℚ
  expires_at : ℚ
deriving DecidableEq

/-- `buildCacheKey` of `parts-cache.ts`. -/
def buildCacheKey (partName : String) (year : ℤ) (make model : String) :
    String :=
  normalizeName partName ++ ":" ++ toString year ++ ":" ++
    (make.toList.map Char.toLower).asString ++ ":" ++
    (model.toList.map Char.toLower).asString

/-- The cache query of `getPartPrice`:
`.eq("cache_key", cacheKey).gt("expires_at", now).single()` over the
`parts_price_cache` table (one live row per key thanks to the unique
index on `cache_key`). -/
def cacheLookup (cache : List CacheRow) (cacheKey : String) (now : ℚ) :
    Option CacheRow :=
  cache.find? fun r => r.cache_key == cacheKey && decide (now < r.expires_at)

/-- The row upserted by `getPartPrice` after a valid marketplace result
(`expires_at` is seven days past `now`, in milliseconds). -/
def cacheUpsertRow (cacheKey partName : String) (year : ℤ)
    (make model : String) (ebayResult : PartsPriceResult) (now : ℚ) :
    CacheRow :=
  { cache_key := cacheKey
    part_name := partName
    year := year
    make := make
    model := model
    source := "ebay"
    price_low := some ebayResult.price_low
    price_median := some ebayResult.price_median
    price_high := some ebayResult.price_high
    raw_data := some ebayResult
    fetched_at := now
    expires_at := now + 7 * 24 * 60 * 60 * 1000 }

/-- `getPartPrice` of `parts-cache.ts`, with its external state passed
explicitly: `cache` is the current contents of `parts_price_cache`, `now`
the current time, and `ebaySearch` the response available to the inner
`searchEbayParts` call. Returns the quote together with the row upserted
into the cache (`none` when nothing is written). The function is total:
every failure of the cache or marketplace falls through to the static
table. -/
def getPartPrice (cache : List CacheRow) (now : ℚ)
    (ebaySearch : Option (List EbayItemSummary)) (partName : String)
    (year : ℤ) (make model : String) (trim : Option String) :
    PartPriceQuote × Option CacheRow :=
  let cacheKey := buildCacheKey partName year make model
  -- 1. Check cache
  match cacheLookup cache cacheKey now with
  | some cached =>
    ({ source := cached.source
       price_low := cached.price_low.getD 0
       price_median := cached.price_median.getD 0
       price_high := cached.price_high.getD 0 }, none)
  | none =>
    -- 2. Try eBay
    match searchEbayParts ebaySearch partName year make model trim with
    | some ebayResult =>
      if 3 ≤ ebayResult.results_count then
        ({ source := "ebay"
           price_low := ebayResult.price_low
           price_median := ebayResult.price_median
           price_high := ebayResult.price_high },
         some (cacheUpsertRow cacheKey partName year make model ebayResult now))
      else
        -- 3. Fall back to static pricing
        let staticPrice := getStaticPartPrice partName year make model
        ({ source := "static"
           price_low := staticPrice.price_low
           price_median := (staticPrice.price_low + staticPrice.price_high) / 2
           price_high := staticPrice.price_high }, none)
    | none =>
      -- 3. Fall back to static pricing
      let staticPrice := getStaticPartPrice partName year make model
      ({ source := "static"
         price_low := staticPrice.price_low
         price_median := (staticPrice.price_low + staticPrice.price_high) / 2
         price_high := staticPrice.price_high }, none)

/-! ## Concrete fixtures used by witnesses and counterexamples -/

/-- A resolver behaving like the static-table fallback of
`getPartPrice` — used to instantiate the oracle in concrete scenarios. -/
def staticOracle : PartPriceFn := fun partName year make model _trim =>
  let sp := getStaticPartPrice partName year make model
  { source := "static"
    price_low := sp.price_low
    price_median := (sp.price_low + sp.price_high) / 2
    price_high := sp.price_high }

/-- A mainstream-tier vehicle. -/
def sampleVehicle : Vehicle := ⟨2018, "Toyota", "Camry", none⟩

/-- A minor-severity observation with no part replacement. -/
def minorDentItem : DamageItem :=
  { id := "obs-1"
    location := "front door"
    damage_type := "dent_small"
    severity := "minor"
    size_estimate := "1 inch"
    description := "small door ding"
    requires_part_replacement := false
    part_name := none
    photo_index := 2 }

/-- A luxury-tier vehicle. -/
def bmwVehicle : Vehicle := ⟨2020, "BMW", "M3", none⟩

/-- An observation requiring replacement of a paintable panel. -/
def fenderItem : DamageItem :=
  { id := "obs-2"
    location := "left fender"
    damage_type := "dent_large"
    severity := "severe"
    size_estimate := "8 inches"
    description := "crushed fender"
    requires_part_replacement := true
    part_name := some "Fender"
    photo_index := 3 }

/-- A severe scratch with no part replacement. -/
def severeScratchItem : DamageItem :=
  { id := "obs-3"
    location := "hood"
    damage_type := "scratch"
    severity := "severe"
    size_estimate := "12 inches"
    description := "deep key scratch"
    requires_part_replacement := false
    part_name := none
    photo_index := 1 }

/-- Four qualifying marketplace listings, given out of price order. -/
def fourListings : List EbayItemSummary := [
  ⟨"OEM front bumper cover", 130, "USD", "NEW", "https://ebay/item-a",
    none, some "EXACT"⟩,
  ⟨"Aftermarket front bumper cover", 90, "USD", "NEW",
    "https://ebay/item-b", none, some "EXACT"⟩,
  ⟨"Front bumper cover primed", 110, "USD", "NEW", "https://ebay/item-c",
    none, some "COMPATIBLE"⟩,
  ⟨"Front bumper cover kit", 100, "USD", "NEW", "https://ebay/item-d",
    none, some "EXACT"⟩]

/-! ## Helper lemmas -/

/-- A successful association-list lookup returns one of the stored
values. -/
theorem lookup_mem_values {α β} [BEq α] {k : α} {v : β} :
    ∀ {l : List (α × β)}, l.lookup k = some v → v ∈ l.map Prod.snd := by
  intro l
  induction l with
  | nil => intro h; simp [List.lookup] at h
  | cons p t ih =>
    intro h
    obtain ⟨a, b⟩ := p
    simp only [List.lookup] at h
    by_cases hk : (k == a) = true
    · rw [hk] at h
      simp only [Option.some.injEq] at h
      subst h
      simp
    · rw [Bool.not_eq_true] at hk
      rw [hk] at h
      simpa using Or.inr (ih h)

theorem mathRound_nonneg {q : ℚ} (h : 0 ≤ q) : 0 ≤ mathRound q := by
  unfold mathRound
  have : (0 : ℤ) ≤ ⌊q + 1/2⌋ := Int.le_floor.mpr (by push_cast; linarith)
  exact_mod_cast this

theorem mathRound_mono {a b : ℚ} (h : a ≤ b) : mathRound a ≤ mathRound b := by
  unfold mathRound
  exact_mod_cast Int.floor_le_floor (by linarith)

/-- Every vehicle-tier multiplier is positive. -/
theorem getTierMultiplier_pos (make : String) : 0 < getTierMultiplier make := by
  unfold getTierMultiplier
  cases getVehicleTier make <;> norm_num [TIER_MULTIPLIERS]

/-- Every labor-rate multiplier is positive. -/
theorem getLaborRateMultiplier_pos (tier : String) :
    0 < getLaborRateMultiplier tier := by
  unfold getLaborRateMultiplier
  cases h : LABOR_RATE_MULTIPLIERS.lookup tier with
  | none => norm_num
  | some v =>
    have hv := lookup_mem_values h
    simp only [LABOR_RATE_MULTIPLIERS, List.map, List.mem_cons,
      List.mem_singleton, List.not_mem_nil, or_false] at hv
    rcases hv with h1 | h1 | h1 <;> subst h1 <;> norm_num

/-- Bounds satisfied by every row of `REPAIR_COSTS`: labor and materials
ranges are non-negative and ordered, and descriptions are non-empty. -/
theorem repairCost_bounds {rc : RepairCost}
    (h : rc ∈ REPAIR_COSTS.map Prod.snd) :
    0 ≤ rc.labor_low ∧ rc.labor_low ≤ rc.labor_high ∧
      0 ≤ rc.materials_low ∧ rc.materials_low ≤ rc.materials_high ∧
      rc.description ≠ "" := by
  fin_cases h <;>
    exact ⟨by norm_num, by norm_num, by norm_num, by norm_num, by decide⟩

/-- Bounds satisfied by every row of `INSTALLATION_LABOR` and by its
default `{labor_low: 100, labor_high: 250}`. -/
theorem installLabor_bounds {il : InstallLabor}
    (h : il ∈ INSTALLATION_LABOR.map Prod.snd ∨ il = ⟨100, 250⟩) :
    0 ≤ il.labor_low ∧ il.labor_low ≤ il.labor_high := by
  rcases h with h | h
  · fin_cases h <;> exact ⟨by norm_num, by norm_num⟩
  · subst h; exact ⟨by norm_num, by norm_num⟩

/-- Bounds satisfied by every row of `STATIC_PART_PRICES` and by its
default `{price_low: 50, price_high: 200}`. -/
theorem staticPartPrice_bounds {sp : StaticPartPrice}
    (h : sp ∈ STATIC_PART_PRICES.map Prod.snd ∨ sp = ⟨50, 200⟩) :
    0 ≤ sp.price_low ∧ sp.price_low ≤ sp.price_high := by
  rcases h with h | h
  · fin_cases h <;> exact ⟨by norm_num, by norm_num⟩
  · subst h; exact ⟨by norm_num, by norm_num⟩

theorem sortAsc_perm (l : List ℚ) : (sortAsc l).Perm l :=
  List.perm_insertionSort _ l

theorem sortAsc_sorted (l : List ℚ) : (sortAsc l).Sorted (· ≤ ·) :=
  List.sorted_insertionSort _ l

theorem getD_mem {l : List ℚ} {i : ℕ} (h : i < l.length) (d : ℚ) :
    l.getD i d ∈ l := by
  rw [List.getD_eq_getElem?_getD, List.getElem?_eq_getElem h]
  simp [List.getElem_mem]

/-- The first element of an ascending-sorted list bounds it below. -/
theorem sorted_first_le {l : List ℚ} (hs : l.Sorted (· ≤ ·)) :
    ∀ x ∈ l, l.getD 0 0 ≤ x := by
  intro x hx
  cases l with
  | nil => cases hx
  | cons a t =>
    rcases List.mem_cons.mp hx with h | h
    · subst h; simp
    · simpa using List.rel_of_sorted_cons hs x h

/-- The last element of an ascending-sorted list bounds it above. -/
theorem sorted_le_last {l : List ℚ} (hs : l.Sorted (· ≤ ·)) :
    ∀ x ∈ l, x ≤ l.getD (l.length - 1) 0 := by
  induction l with
  | nil => intro x hx; cases hx
  | cons a t ih =>
    intro x hx
    cases t with
    | nil =>
      simp only [List.mem_singleton] at hx
      subst hx; simp
    | cons b t2 =>
      have hlen : (a :: b :: t2).length - 1 = (b :: t2).length - 1 + 1 := by
        simp
      have hstep : (a :: b :: t2).getD ((a :: b :: t2).length - 1) 0 =
          (b :: t2).getD ((b :: t2).length - 1) 0 := by
        rw [hlen, List.getD_cons_succ]
      rcases List.mem_cons.mp hx with h | h
      · subst h
        have hmem : (b :: t2).getD ((b :: t2).length - 1) 0 ∈ b :: t2 :=
          getD_mem (by simp [Nat.lt_succ_of_le]) 0
        rw [hstep]
        exact List.rel_of_sorted_cons hs _ hmem
      · rw [hstep]
        exact ih hs.of_cons x h

/-- Every repair-operation identifier stored in the two-level damage
mapping is a key of `REPAIR_COSTS`. -/
theorem mapping_values_are_keys :
    ∀ inner ∈ damageSeverityMapping.map Prod.snd,
      ∀ v ∈ inner.map Prod.snd, (REPAIR_COSTS.lookup v).isSome := by decide

/-- `getRepairType` always lands on a key of `REPAIR_COSTS`. -/
theorem getRepairType_isKey (dt sev loc : String) :
    (REPAIR_COSTS.lookup (getRepairType dt sev loc)).isSome := by
  unfold getRepairType
  cases h : mappingLookup dt sev with
  | none => decide
  | some v =>
    unfold mappingLookup at h
    cases houter : damageSeverityMapping.lookup dt with
    | none => rw [houter] at h; simp at h
    | some inner =>
      rw [houter] at h
      rw [Option.some_bind] at h
      exact mapping_values_are_keys inner (lookup_mem_values houter) v
        (lookup_mem_values h)

/-- The `full_panel_respray` row used for paint add-on costs. -/
theorem lookup_full_panel_respray :
    REPAIR_COSTS.lookup "full_panel_respray" =
      some ⟨"full_panel_respray", "Full panel sand, prime, and respray",
        200, 450, 60, 150⟩ := rfl

/-- Output fields of the repair-only path carry the observation through
and satisfy the cost invariants. -/
theorem repairPath_bounds (t m : ℚ) (ht : 0 < t) (hm : 0 < m)
    (item : DamageItem) :
    (buildEstimateRepairPath t m item).cost_low =
        (buildEstimateRepairPath t m item).parts_cost_low +
          (buildEstimateRepairPath t m item).labor_cost_low ∧
      (buildEstimateRepairPath t m item).cost_high =
        (buildEstimateRepairPath t m item).parts_cost_high +
          (buildEstimateRepairPath t m item).labor_cost_high ∧
      0 ≤ (buildEstimateRepairPath t m item).parts_cost_low ∧
      (buildEstimateRepairPath t m item).parts_cost_low ≤
        (buildEstimateRepairPath t m item).parts_cost_high ∧
      0 ≤ (buildEstimateRepairPath t m item).labor_cost_low ∧
      (buildEstimateRepairPath t m item).labor_cost_low ≤
        (buildEstimateRepairPath t m item).labor_cost_high := by
  cases hrc : REPAIR_COSTS.lookup
      (getRepairType item.damage_type item.severity item.location) with
  | none => simp [buildEstimateRepairPath, hrc]
  | some rc =>
    simp only [buildEstimateRepairPath, hrc]
    obtain ⟨hl0, hllh, hm0, hmlh, -⟩ := repairCost_bounds (lookup_mem_values hrc)
    have hlab0 : 0 ≤ mathRound (rc.labor_low * t * m) :=
      mathRound_nonneg (mul_nonneg (mul_nonneg hl0 ht.le) hm.le)
    have hlabmono : mathRound (rc.labor_low * t * m) ≤
        mathRound (rc.labor_high * t * m) :=
      mathRound_mono (mul_le_mul_of_nonneg_right
        (mul_le_mul_of_nonneg_right hllh ht.le) hm.le)
    exact ⟨trivial, trivial, hm0, hmlh, hlab0, hlabmono⟩

/-- Cost invariants of the part-replacement path, for any resolved quote
with an ordered non-negative price range. -/
theorem partPath_bounds (gp : PartPriceFn) (veh : Vehicle) (t m : ℚ)
    (ht : 0 < t) (hm : 0 < m) (item : DamageItem)
    (hq1 : 0 ≤ (gp (item.part_name.getD "") veh.year veh.make veh.model
      veh.trim).price_low)
    (hq2 : (gp (item.part_name.getD "") veh.year veh.make veh.model
        veh.trim).price_low ≤
      (gp (item.part_name.getD "") veh.year veh.make veh.model
        veh.trim).price_high) :
    (buildEstimatePartPath gp veh t m item).cost_low =
        (buildEstimatePartPath gp veh t m item).parts_cost_low +
          (buildEstimatePartPath gp veh t m item).labor_cost_low ∧
      (buildEstimatePartPath gp veh t m item).cost_high =
        (buildEstimatePartPath gp veh t m item).parts_cost_high +
          (buildEstimatePartPath gp veh t m item).labor_cost_high ∧
      0 ≤ (buildEstimatePartPath gp veh t m item).parts_cost_low ∧
      (buildEstimatePartPath gp veh t m item).parts_cost_low ≤
        (buildEstimatePartPath gp veh t m item).parts_cost_high ∧
      0 ≤ (buildEstimatePartPath gp veh t m item).labor_cost_low ∧
      (buildEstimatePartPath gp veh t m item).labor_cost_low ≤
        (buildEstimatePartPath gp veh t m item).labor_cost_high := by
  have hilb : 0 ≤ ((INSTALLATION_LABOR.lookup
        (normalizeName (item.part_name.getD ""))).getD ⟨100, 250⟩).labor_low ∧
      ((INSTALLATION_LABOR.lookup
        (normalizeName (item.part_name.getD ""))).getD ⟨100, 250⟩).labor_low ≤
      ((INSTALLATION_LABOR.lookup
        (normalizeName (item.part_name.getD ""))).getD ⟨100, 250⟩).labor_high := by
    cases hil : INSTALLATION_LABOR.lookup
        (normalizeName (item.part_name.getD "")) with
    | none => simpa using installLabor_bounds (Or.inr rfl)
    | some x => simpa using installLabor_bounds (Or.inl (lookup_mem_values hil))
  obtain ⟨hil0, hilm⟩ := hilb
  have hll0 : 0 ≤ mathRound (((INSTALLATION_LABOR.lookup
      (normalizeName (item.part_name.getD ""))).getD ⟨100, 250⟩).labor_low * t * m) :=
    mathRound_nonneg (mul_nonneg (mul_nonneg hil0 ht.le) hm.le)
  have hllm : mathRound (((INSTALLATION_LABOR.lookup
        (normalizeName (item.part_name.getD ""))).getD ⟨100, 250⟩).labor_low * t * m) ≤
      mathRound (((INSTALLATION_LABOR.lookup
        (normalizeName (item.part_name.getD ""))).getD ⟨100, 250⟩).labor_high * t * m) :=
    mathRound_mono (mul_le_mul_of_nonneg_right
      (mul_le_mul_of_nonneg_right hilm ht.le) hm.le)
  have hp0 : 0 ≤ mathRound ((200 : ℚ) * t * m) :=
    mathRound_nonneg (mul_nonneg (mul_nonneg (by norm_num) ht.le) hm.le)
  have hpm : mathRound ((200 : ℚ) * t * m) ≤ mathRound ((450 : ℚ) * t * m) :=
    mathRound_mono (mul_le_mul_of_nonneg_right
      (mul_le_mul_of_nonneg_right (by norm_num) ht.le) hm.le)
  have hst0 : 0 ≤ mathRound ((gp (item.part_name.getD "") veh.year veh.make
      veh.model veh.trim).price_low * t) :=
    mathRound_nonneg (mul_nonneg hq1 ht.le)
  have hstm : mathRound ((gp (item.part_name.getD "") veh.year veh.make
        veh.model veh.trim).price_low * t) ≤
      mathRound ((gp (item.part_name.getD "") veh.year veh.make
        veh.model veh.trim).price_high * t) :=
    mathRound_mono (mul_le_mul_of_nonneg_right hq2 ht.le)
  simp only [buildEstimatePartPath, lookup_full_panel_respray, Option.getD_some]
  split_ifs <;>
    exact ⟨trivial, trivial, by linarith, by linarith, by linarith, by linarith⟩

/-- The `item.photo_index || 0` fallback is the identity on integers
(`0` is the only falsy integer and maps to itself). -/
theorem photoIndex_fallback_id (p : ℤ) :
    (if (p == 0) = true then 0 else p) = p := by
  split_ifs with h
  · simpa using (beq_iff_eq.mp h).symm
  · rfl

/-- Both paths of the per-item closure copy the observation's identifying
fields into the line item unchanged. -/
theorem buildEstimateItem_carries (gp : PartPriceFn) (veh : Vehicle)
    (t m : ℚ) (item : DamageItem) :
    (buildEstimateItem gp veh t m item).id = item.id ∧
      (buildEstimateItem gp veh t m item).location = item.location ∧
      (buildEstimateItem gp veh t m item).damage_type = item.damage_type ∧
      (buildEstimateItem gp veh t m item).severity = item.severity ∧
      (buildEstimateItem gp veh t m item).photo_index = item.photo_index := by
  unfold buildEstimateItem
  split_ifs with hcond
  · simp only [buildEstimatePartPath]
    exact ⟨trivial, trivial, trivial, trivial, photoIndex_fallback_id _⟩
  · cases hrc : REPAIR_COSTS.lookup
        (getRepairType item.damage_type item.severity item.location) with
    | none =>
      simp only [buildEstimateRepairPath, hrc]
      exact ⟨trivial, trivial, trivial, trivial, photoIndex_fallback_id _⟩
    | some rc =>
      simp only [buildEstimateRepairPath, hrc]
      exact ⟨trivial, trivial, trivial, trivial, photoIndex_fallback_id _⟩


/-- C1: contrary to the spec, `buildEstimate` in
`src/lib/pricing/damage-mapper.ts` sets `is_included: true` on every line
item, including minor-severity ones: for the minor-severity observation
`minorDentItem` the produced line item has `is_included = true` even
though its severity is `"minor"` (the spec, and the newer copy of
`buildEstimate` embedded at the end of `src/lib/pricing/repair-costs.ts`,
require `is_included = (severity != "minor")`, i.e. `false` here). -/
theorem c1_is_included_always_true :
    ((buildEstimate staticOracle [minorDentItem] sampleVehicle "medium").map
        fun li => li.is_included) = [true] ∧
      minorDentItem.severity = "minor" :=
  ⟨rfl, rfl⟩

/-- C5: `buildEstimate` returns exactly one line item per input
observation: the output has the same length as the input, and the `i`-th
line item carries the `i`-th observation's id, location, damage type,
severity and photo index. -/
theorem c5_one_line_item_per_observation (gp : PartPriceFn)
    (items : List DamageItem) (veh : Vehicle) (ltier : String) :
    (buildEstimate gp items veh ltier).length = items.length ∧
      ∀ i (hi : i < items.length)
        (ho : i < (buildEstimate gp items veh ltier).length),
        ((buildEstimate gp items veh ltier).get ⟨i, ho⟩).id =
            (items.get ⟨i, hi⟩).id ∧
          ((buildEstimate gp items veh ltier).get ⟨i, ho⟩).location =
            (items.get ⟨i, hi⟩).location ∧
          ((buildEstimate gp items veh ltier).get ⟨i, ho⟩).damage_type =
            (items.get ⟨i, hi⟩).damage_type ∧
          ((buildEstimate gp items veh ltier).get ⟨i, ho⟩).severity =
            (items.get ⟨i, hi⟩).severity ∧
          ((buildEstimate gp items veh ltier).get ⟨i, ho⟩).photo_index =
            (items.get ⟨i, hi⟩).photo_index := by
  refine ⟨by simp [buildEstimate], ?_⟩
  intro i hi ho
  have hmap : (buildEstimate gp items veh ltier).get ⟨i, ho⟩ =
      buildEstimateItem gp veh (getTierMultiplier veh.make)
        (getLaborRateMultiplier ltier) (items.get ⟨i, hi⟩) := by
    simp [buildEstimate, List.get_eq_getElem, List.getElem_map]
  rw [hmap]
  exact buildEstimateItem_carries gp veh (getTierMultiplier veh.make)
    (getLaborRateMultiplier ltier) (items.get ⟨i, hi⟩)

/-- Witness for C5 at a concrete singleton input. -/
theorem c5_witness :
    (buildEstimate staticOracle [minorDentItem] sampleVehicle
        "medium").length = ([minorDentItem] : List DamageItem).length ∧
      ((buildEstimate staticOracle [minorDentItem] sampleVehicle
          "medium").get ⟨0, by decide⟩).id = "obs-1" := by
  have h := c5_one_line_item_per_observation staticOracle [minorDentItem]
    sampleVehicle "medium"
  exact ⟨h.1, (h.2 0 (by decide) (by decide)).1.trans rfl⟩

/-- C8: `getRepairType` is total and any (damageType, severity) pair not
present in the two-level mapping — in particular the damage types
`hole`, `broken` and `missing`, and any unknown damage type — falls back
to the default `"spot_respray_small"` instead of erroring. -/
theorem c8_getRepairType_total_default :
    (∀ dt sev loc : String, mappingLookup dt sev = none →
        getRepairType dt sev loc = "spot_respray_small") ∧
      ∀ sev loc : String,
        getRepairType "hole" sev loc = "spot_respray_small" ∧
          getRepairType "broken" sev loc = "spot_respray_small" ∧
          getRepairType "missing" sev loc = "spot_respray_small" := by
  have hdefault : ∀ dt sev loc : String, mappingLookup dt sev = none →
      getRepairType dt sev loc = "spot_respray_small" := by
    intro dt sev loc h
    unfold getRepairType
    rw [h]
    rfl
  refine ⟨hdefault, fun sev loc => ?_⟩
  have hole : damageSeverityMapping.lookup "hole" = none := by decide
  have broken : damageSeverityMapping.lookup "broken" = none := by decide
  have missing : damageSeverityMapping.lookup "missing" = none := by decide
  exact ⟨hdefault _ sev loc (by rw [mappingLookup, hole]; rfl),
    hdefault _ sev loc (by rw [mappingLookup, broken]; rfl),
    hdefault _ sev loc (by rw [mappingLookup, missing]; rfl)⟩

/-- Witness for C8: the enum member `hole` paired with `minor` is absent
from the mapping and resolves to the default. -/
theorem c8_witness :
    mappingLookup "hole" "minor" = none ∧
      getRepairType "hole" "minor" "front bumper" = "spot_respray_small" :=
  ⟨by decide, c8_getRepairType_total_default.1 "hole" "minor" "front bumper"
    (by decide)⟩

/-- C9: every repair-operation identifier `getRepairType` can return is a
key of `REPAIR_COSTS` (with a non-empty description), so the
missing-repair-cost branch of the repair-only path is unreachable: every
repair-only line item receives the table's labor and materials costs and
a non-empty recommended repair. -/
theorem c9_repair_costs_cover_getRepairType :
    (∀ dt sev loc : String, ∃ rc,
        REPAIR_COSTS.lookup (getRepairType dt sev loc) = some rc ∧
          rc.description ≠ "") ∧
      ∀ (gp : PartPriceFn) (veh : Vehicle) (t m : ℚ) (item : DamageItem),
        (item.requires_part_replacement && isTruthyName item.part_name) =
            false → ∃ rc,
          REPAIR_COSTS.lookup (getRepairType item.damage_type item.severity
            item.location) = some rc ∧
          (buildEstimateItem gp veh t m item).recommended_repair =
            rc.description ∧
          (buildEstimateItem gp veh t m item).recommended_repair ≠ "" ∧
          (buildEstimateItem gp veh t m item).parts_cost_low =
            rc.materials_low ∧
          (buildEstimateItem gp veh t m item).parts_cost_high =
            rc.materials_high ∧
          (buildEstimateItem gp veh t m item).labor_cost_low =
            mathRound (rc.labor_low * t * m) ∧
          (buildEstimateItem gp veh t m item).labor_cost_high =
            mathRound (rc.labor_high * t * m) := by
  have hkey : ∀ dt sev loc : String, ∃ rc,
      REPAIR_COSTS.lookup (getRepairType dt sev loc) = some rc ∧
        rc.description ≠ "" := by
    intro dt sev loc
    have h := getRepairType_isKey dt sev loc
    cases hrc : REPAIR_COSTS.lookup (getRepairType dt sev loc) with
    | none => rw [hrc] at h; simp at h
    | some rc =>
      exact ⟨rc, rfl, (repairCost_bounds (lookup_mem_values hrc)).2.2.2.2⟩
  refine ⟨hkey, fun gp veh t m item hcond => ?_⟩
  obtain ⟨rc, hrc, hdesc⟩ :=
    hkey item.damage_type item.severity item.location
  refine ⟨rc, hrc, ?_⟩
  unfold buildEstimateItem
  rw [hcond]
  simp only [Bool.false_eq_true, if_false, buildEstimateRepairPath, hrc]
  exact ⟨trivial, by simpa using hdesc, trivial, trivial, trivial, trivial⟩

/-- Witness for C9: at a concrete repair-only observation the line item
gets a non-empty recommended repair. -/
theorem c9_witness :
    (minorDentItem.requires_part_replacement &&
        isTruthyName minorDentItem.part_name) = false ∧
      (buildEstimateItem staticOracle sampleVehicle 1 1
        minorDentItem).recommended_repair ≠ "" := by
  refine ⟨by decide, ?_⟩
  obtain ⟨rc, hrc, hprops⟩ := c9_repair_costs_cover_getRepairType.2
    staticOracle sampleVehicle 1 1 minorDentItem (by decide)
  exact hprops.2.1

/-- C10: an observation with `requires_part_replacement = true` but a
missing or empty `part_name` is priced through the repair-only path: the
result does not depend on the part-price resolver at all, equals the
result for the same observation with `requires_part_replacement = false`,
and carries `pricing_source = "static"`. -/
theorem c10_empty_part_name_repair_only (gp gp2 : PartPriceFn)
    (veh : Vehicle) (t m : ℚ) (item : DamageItem)
    (_hreq : item.requires_part_replacement = true)
    (hpn : item.part_name = none ∨ item.part_name = some "") :
    buildEstimateItem gp veh t m item = buildEstimateItem gp2 veh t m item ∧
      buildEstimateItem gp veh t m item =
        buildEstimateItem gp veh t m
          { item with requires_part_replacement := false } ∧
      (buildEstimateItem gp veh t m item).pricing_source = "static" := by
  have htruthy : isTruthyName item.part_name = false := by
    rcases hpn with h | h <;> rw [h] <;> rfl
  have hcond : (item.requires_part_replacement &&
      isTruthyName item.part_name) = false := by
    rw [htruthy, Bool.and_false]
  have hcond2 : (({ item with requires_part_replacement := false } :
      DamageItem).requires_part_replacement &&
      isTruthyName ({ item with requires_part_replacement := false} :
        DamageItem).part_name) = false := by
    simp
  have hrepair : ∀ gp3 : PartPriceFn,
      buildEstimateItem gp3 veh t m item =
        buildEstimateRepairPath t m item := by
    intro gp3
    unfold buildEstimateItem
    rw [hcond]
    simp
  have hrepair2 : buildEstimateItem gp veh t m
      { item with requires_part_replacement := false } =
      buildEstimateRepairPath t m
        { item with requires_part_replacement := false } := by
    unfold buildEstimateItem
    rw [hcond2]
    simp
  have hsame : buildEstimateRepairPath t m
      { item with requires_part_replacement := false } =
      buildEstimateRepairPath t m item := by
    unfold buildEstimateRepairPath
    rfl
  have hsource : (buildEstimateRepairPath t m item).pricing_source =
      "static" := by
    unfold buildEstimateRepairPath
    cases hrc : REPAIR_COSTS.lookup
        (getRepairType item.damage_type item.severity item.location) with
    | none => simp [hrc]
    | some rc => simp [hrc]
  exact ⟨(hrepair gp).trans (hrepair gp2).symm,
    (hrepair gp).trans (hrepair2.trans hsame).symm,
    (hrepair gp) ▸ hsource⟩

/-- Witness for C10 at a concrete observation with
`requires_part_replacement = true` and `part_name = null`. -/
theorem c10_witness :
    ({ minorDentItem with requires_part_replacement := true } :
        DamageItem).requires_part_replacement = true ∧
      (buildEstimateItem staticOracle sampleVehicle 1 1
          { minorDentItem with
            requires_part_replacement := true }).pricing_source =
        "static" := by
  refine ⟨rfl, ?_⟩
  have h := c10_empty_part_name_repair_only staticOracle staticOracle
    sampleVehicle 1 1 { minorDentItem with requires_part_replacement := true }
    rfl (Or.inl rfl)
  exact h.2.2

/-- C3: in the part-replacement path, the vehicle-tier multiplier is
applied (with rounding) to the parts price exactly when the resolved
quote's source is `"static"`, while installation labor is always scaled
by both the vehicle-tier and labor-rate multipliers, whatever the price
source; paintable panels additionally add the unscaled
`full_panel_respray` materials and its scaled labor. -/
theorem c3_tier_multiplier_scaling (gp : PartPriceFn) (veh : Vehicle)
    (ltier : String) (item : DamageItem) (t m : ℚ) (q : PartPriceQuote)
    (np : String) (il : InstallLabor)
    (hcond : (item.requires_part_replacement &&
      isTruthyName item.part_name) = true)
    (ht : t = getTierMultiplier veh.make)
    (hm : m = getLaborRateMultiplier ltier)
    (hq : q = gp (item.part_name.getD "") veh.year veh.make veh.model
      veh.trim)
    (hnp : np = normalizeName (item.part_name.getD ""))
    (hil : il = (INSTALLATION_LABOR.lookup np).getD ⟨100, 250⟩) :
    (buildEstimateItem gp veh t m item).labor_cost_low =
        mathRound (il.labor_low * t * m) +
          (if paintableParts.contains np then mathRound ((200 : ℚ) * t * m)
            else 0) ∧
      (buildEstimateItem gp veh t m item).labor_cost_high =
        mathRound (il.labor_high * t * m) +
          (if paintableParts.contains np then mathRound ((450 : ℚ) * t * m)
            else 0) ∧
      (q.source = "static" →
        (buildEstimateItem gp veh t m item).parts_cost_low =
            mathRound (q.price_low * t) +
              (if paintableParts.contains np then (60 : ℚ) else 0) ∧
          (buildEstimateItem gp veh t m item).parts_cost_high =
            mathRound (q.price_high * t) +
              (if paintableParts.contains np then (150 : ℚ) else 0)) ∧
      (q.source ≠ "static" →
        (buildEstimateItem gp veh t m item).parts_cost_low =
            q.price_low +
              (if paintableParts.contains np then (60 : ℚ) else 0) ∧
          (buildEstimateItem gp veh t m item).parts_cost_high =
            q.price_high +
              (if paintableParts.contains np then (150 : ℚ) else 0)) := by
  subst ht hm hq hnp hil
  unfold buildEstimateItem
  simp only [hcond, if_true]
  simp only [buildEstimatePartPath, lookup_full_panel_respray,
    Option.getD_some]
  refine ⟨?_, ?_, fun hsrc => ?_, fun hsrc => ?_⟩
  · by_cases hp : normalizeName (item.part_name.getD "") ∈ paintableParts <;>
      simp [hp]
  · by_cases hp : normalizeName (item.part_name.getD "") ∈ paintableParts <;>
      simp [hp]
  · have hb : ((gp (item.part_name.getD "") veh.year veh.make veh.model
        veh.trim).source == "static") = true := beq_iff_eq.mpr hsrc
    by_cases hp : normalizeName (item.part_name.getD "") ∈ paintableParts <;>
      constructor <;> simp [hb, hp]
  · have hb : ((gp (item.part_name.getD "") veh.year veh.make veh.model
        veh.trim).source == "static") = false := by
      simpa using hsrc
    by_cases hp : normalizeName (item.part_name.getD "") ∈ paintableParts <;>
      constructor <;> simp [hb, hp]

/-- Witness for C3: a static-priced `Fender` on a luxury make at the
high labor tier; parts price is scaled by the 1.6 tier multiplier
(`round(60 × 1.6) = 96`) plus the 60 paint materials. -/
theorem c3_witness :
    (fenderItem.requires_part_replacement &&
        isTruthyName fenderItem.part_name) = true ∧
      (buildEstimateItem staticOracle bmwVehicle
          (getTierMultiplier bmwVehicle.make)
          (getLaborRateMultiplier "high") fenderItem).parts_cost_low =
        156 := by
  have h := c3_tier_multiplier_scaling staticOracle bmwVehicle "high"
    fenderItem (getTierMultiplier bmwVehicle.make)
    (getLaborRateMultiplier "high")
    (staticOracle (fenderItem.part_name.getD "") bmwVehicle.year
      bmwVehicle.make bmwVehicle.model bmwVehicle.trim)
    (normalizeName (fenderItem.part_name.getD ""))
    ((INSTALLATION_LABOR.lookup
      (normalizeName (fenderItem.part_name.getD ""))).getD ⟨100, 250⟩)
    (by decide) rfl rfl rfl rfl rfl
  have hsrc : (staticOracle (fenderItem.part_name.getD "") bmwVehicle.year
      bmwVehicle.make bmwVehicle.model bmwVehicle.trim).source = "static" :=
    rfl
  have h2 := (h.2.2.1 hsrc).1
  refine ⟨by decide, ?_⟩
  rw [h2]
  have hcontains : paintableParts.contains
      (normalizeName (fenderItem.part_name.getD "")) = true := by decide
  rw [hcontains]
  have hplow : (staticOracle (fenderItem.part_name.getD "") bmwVehicle.year
      bmwVehicle.make bmwVehicle.model bmwVehicle.trim).price_low = 60 := rfl
  have htier : getTierMultiplier bmwVehicle.make = 1.6 := by
    have : getVehicleTier bmwVehicle.make = .luxury := by decide
    rw [getTierMultiplier, this]
    rfl
  rw [hplow, htier]
  norm_num [mathRound, Int.floor_eq_iff]

/-- The static-fallback-style resolver always yields an ordered
non-negative price range. -/
theorem staticOracle_wellformed (pn : String) (y : ℤ) (mk md : String)
    (tr : Option String) :
    0 ≤ (staticOracle pn y mk md tr).price_low ∧
      (staticOracle pn y mk md tr).price_low ≤
        (staticOracle pn y mk md tr).price_high := by
  unfold staticOracle getStaticPartPrice
  cases hsp : STATIC_PART_PRICES.lookup (normalizeName pn) with
  | none => simpa using staticPartPrice_bounds (Or.inr rfl)
  | some sp =>
    simpa using staticPartPrice_bounds (Or.inl (lookup_mem_values hsp))

/-- C4: whenever the part-price resolver returns ordered non-negative
price ranges (as both the marketplace reduction and the static table do),
every line item built by `buildEstimate` has `cost_low/high` equal to the
sum of its parts and labor sub-totals, `cost_low ≤ cost_high`, and all
four sub-totals non-negative. -/
theorem c4_cost_invariants (gp : PartPriceFn) (items : List DamageItem)
    (veh : Vehicle) (ltier : String)
    (hq : ∀ (pn : String) (y : ℤ) (mk md : String) (tr : Option String),
      0 ≤ (gp pn y mk md tr).price_low ∧
        (gp pn y mk md tr).price_low ≤ (gp pn y mk md tr).price_high) :
    ∀ li ∈ buildEstimate gp items veh ltier,
      li.cost_low = li.parts_cost_low + li.labor_cost_low ∧
        li.cost_high = li.parts_cost_high + li.labor_cost_high ∧
        li.cost_low ≤ li.cost_high ∧
        0 ≤ li.parts_cost_low ∧ 0 ≤ li.parts_cost_high ∧
        0 ≤ li.labor_cost_low ∧ 0 ≤ li.labor_cost_high := by
  intro li hli
  simp only [buildEstimate, List.mem_map] at hli
  obtain ⟨item, -, rfl⟩ := hli
  have ht := getTierMultiplier_pos veh.make
  have hm := getLaborRateMultiplier_pos ltier
  unfold buildEstimateItem
  split_ifs with hcond
  · obtain ⟨h1, h2, h3, h4, h5, h6⟩ := partPath_bounds gp veh
      (getTierMultiplier veh.make) (getLaborRateMultiplier ltier) ht hm item
      (hq (item.part_name.getD "") veh.year veh.make veh.model veh.trim).1
      (hq (item.part_name.getD "") veh.year veh.make veh.model veh.trim).2
    exact ⟨h1, h2, by rw [h1, h2]; exact add_le_add h4 h6,
      h3, h3.trans h4, h5, h5.trans h6⟩
  · obtain ⟨h1, h2, h3, h4, h5, h6⟩ := repairPath_bounds
      (getTierMultiplier veh.make) (getLaborRateMultiplier ltier) ht hm item
    exact ⟨h1, h2, by rw [h1, h2]; exact add_le_add h4 h6,
      h3, h3.trans h4, h5, h5.trans h6⟩

/-- Witness for C4: the invariants hold for the line item built from a
concrete part-replacement observation with the static-table resolver. -/
theorem c4_witness :
    (0 ≤ (staticOracle "Fender" 2020 "BMW" "M3" none).price_low ∧
        (staticOracle "Fender" 2020 "BMW" "M3" none).price_low ≤
          (staticOracle "Fender" 2020 "BMW" "M3" none).price_high) ∧
      ((buildEstimate staticOracle [fenderItem] bmwVehicle "high").get
            ⟨0, by decide⟩).cost_low =
          ((buildEstimate staticOracle [fenderItem] bmwVehicle "high").get
            ⟨0, by decide⟩).parts_cost_low +
          ((buildEstimate staticOracle [fenderItem] bmwVehicle "high").get
            ⟨0, by decide⟩).labor_cost_low ∧
        ((buildEstimate staticOracle [fenderItem] bmwVehicle "high").get
            ⟨0, by decide⟩).cost_low ≤
          ((buildEstimate staticOracle [fenderItem] bmwVehicle "high").get
            ⟨0, by decide⟩).cost_high ∧
        0 ≤ ((buildEstimate staticOracle [fenderItem] bmwVehicle "high").get
            ⟨0, by decide⟩).parts_cost_low ∧
        0 ≤ ((buildEstimate staticOracle [fenderItem] bmwVehicle "high").get
            ⟨0, by decide⟩).labor_cost_low := by
  have h := c4_cost_invariants staticOracle [fenderItem] bmwVehicle "high"
    (fun pn y mk md tr => staticOracle_wellformed pn y mk md tr)
    ((buildEstimate staticOracle [fenderItem] bmwVehicle "high").get
      ⟨0, by decide⟩)
    (List.get_mem _ _ _)
  exact ⟨staticOracle_wellformed "Fender" 2020 "BMW" "M3" none,
    h.1, h.2.2.1, h.2.2.2.1, h.2.2.2.2.2.1⟩

/-- C7: a severe scratch without part replacement on a luxury make
(multiplier 1.6) at the high labor-rate tier (multiplier 1.3) maps to
`full_panel_respray` and is priced with labor
`round(200 × 1.6 × 1.3) = 416` to `round(450 × 1.6 × 1.3) = 936`,
unscaled materials `[60, 150]`, and `is_included = true`. -/
theorem c7_severe_scratch_luxury_high :
    getTierMultiplier bmwVehicle.make = 1.6 ∧
      getLaborRateMultiplier "high" = 1.3 ∧
      getRepairType severeScratchItem.damage_type severeScratchItem.severity
        severeScratchItem.location = "full_panel_respray" ∧
      ((buildEstimate staticOracle [severeScratchItem] bmwVehicle
          "high").get ⟨0, by decide⟩).recommended_repair =
        "Full panel sand, prime, and respray" ∧
      ((buildEstimate staticOracle [severeScratchItem] bmwVehicle
          "high").get ⟨0, by decide⟩).labor_cost_low = 416 ∧
      ((buildEstimate staticOracle [severeScratchItem] bmwVehicle
          "high").get ⟨0, by decide⟩).labor_cost_high = 936 ∧
      ((buildEstimate staticOracle [severeScratchItem] bmwVehicle
          "high").get ⟨0, by decide⟩).parts_cost_low = 60 ∧
      ((buildEstimate staticOracle [severeScratchItem] bmwVehicle
          "high").get ⟨0, by decide⟩).parts_cost_high = 150 ∧
      ((buildEstimate staticOracle [severeScratchItem] bmwVehicle
          "high").get ⟨0, by decide⟩).is_included = true := by
  have htier : getTierMultiplier bmwVehicle.make = 1.6 := by
    have h : getVehicleTier bmwVehicle.make = .luxury := by decide
    rw [getTierMultiplier, h]
    rfl
  have hlab : getLaborRateMultiplier "high" = 1.3 := rfl
  have e1 : (buildEstimate staticOracle [severeScratchItem] bmwVehicle
      "high").get ⟨0, by decide⟩ =
      buildEstimateRepairPath (getTierMultiplier bmwVehicle.make)
        (getLaborRateMultiplier "high") severeScratchItem := rfl
  have hlookup : REPAIR_COSTS.lookup (getRepairType
      severeScratchItem.damage_type severeScratchItem.severity
      severeScratchItem.location) =
      some ⟨"full_panel_respray", "Full panel sand, prime, and respray",
        200, 450, 60, 150⟩ := rfl
  refine ⟨htier, hlab, by decide, ?_, ?_, ?_, ?_, ?_, ?_⟩ <;>
    rw [e1] <;>
      simp only [buildEstimateRepairPath, hlookup, htier, hlab] <;>
        norm_num [mathRound, Int.floor_eq_iff]

/-- C2: `getPartPrice` resolves in three tiers — a live cache entry is
returned immediately (with no cache write); otherwise a marketplace
result with at least 3 qualifying listings is cached and returned with
the marketplace source tag `"ebay"`; otherwise (search failed, or fewer
than 3 listings) the static table is returned with source `"static"` —
and in every case a quote is produced, never an error. -/
theorem c2_getPartPrice_three_tier (cache : List CacheRow) (now : ℚ)
    (ebay : Option (List EbayItemSummary)) (partName : String) (year : ℤ)
    (make model : String) (trim : Option String) :
    (∀ e, cacheLookup cache (buildCacheKey partName year make model) now =
        some e →
      getPartPrice cache now ebay partName year make model trim =
        ({ source := e.source
           price_low := e.price_low.getD 0
           price_median := e.price_median.getD 0
           price_high := e.price_high.getD 0 }, none)) ∧
    (cacheLookup cache (buildCacheKey partName year make model) now =
        none →
      ∀ r, searchEbayParts ebay partName year make model trim = some r →
        3 ≤ r.results_count →
        getPartPrice cache now ebay partName year make model trim =
          ({ source := "ebay"
             price_low := r.price_low
             price_median := r.price_median
             price_high := r.price_high },
           some (cacheUpsertRow (buildCacheKey partName year make model)
             partName year make model r now))) ∧
    (cacheLookup cache (buildCacheKey partName year make model) now =
        none →
      (∀ r, searchEbayParts ebay partName year make model trim = some r →
        r.results_count < 3) →
      getPartPrice cache now ebay partName year make model trim =
        ({ source := "static"
           price_low := (getStaticPartPrice partName year make
             model).price_low
           price_median := ((getStaticPartPrice partName year make
             model).price_low + (getStaticPartPrice partName year make
             model).price_high) / 2
           price_high := (getStaticPartPrice partName year make
             model).price_high }, none)) := by
  refine ⟨?_, ?_, ?_⟩
  · intro e he
    simp [getPartPrice, he]
  · intro hc r hr h3
    simp only [getPartPrice, hc, hr]
    rw [if_pos h3]
  · intro hc hlt
    simp only [getPartPrice, hc]
    cases hr : searchEbayParts ebay partName year make model trim with
    | none => rfl
    | some r =>
      dsimp only []
      rw [if_neg (not_le.mpr (hlt r hr))]

/-- Witness for C2: with an empty cache and a failed marketplace search,
the `front bumper cover` quote falls back to the static table
(`[80, 250]`, median 165, source `"static"`, nothing cached). -/
theorem c2_witness :
    cacheLookup [] (buildCacheKey "front bumper cover" 2018 "Toyota"
        "Camry") 0 = none ∧
      getPartPrice [] 0 none "front bumper cover" 2018 "Toyota" "Camry"
          none =
        ({ source := "static"
           price_low := 80
           price_median := 165
           price_high := 250 }, none) := by
  have h := (c2_getPartPrice_three_tier [] 0 none "front bumper cover"
    2018 "Toyota" "Camry" none).2.2 rfl
    (fun r hr => by simp [searchEbayParts] at hr)
  refine ⟨rfl, ?_⟩
  rw [h]
  have hsp : getStaticPartPrice "front bumper cover" 2018 "Toyota"
      "Camry" = ⟨80, 250⟩ := rfl
  rw [hsp]
  simp only [Prod.mk.injEq, PartPriceQuote.mk.injEq]
  norm_num

/-- C6 counterexample: on the four qualifying prices
`[130, 90, 110, 100]` (sorted: `[90, 100, 110, 130]`), `searchEbayParts`
returns `price_median = 110`, the *upper* of the two middle elements —
not `100`, the lower-middle element the claim prescribes for even
counts. -/
theorem c6_counterexample :
    sortAsc ((fourListings.filter compatQualifies).map
        fun i => i.priceValue) = [90, 100, 110, 130] ∧
      ((searchEbayParts (some fourListings) "front bumper cover" 2018
          "Toyota" "Camry" none).map fun r => r.price_median) =
        some 110 ∧
      (110 : ℚ) ≠ 100 := by
  refine ⟨?_, ?_, by norm_num⟩
  · norm_num [fourListings, compatQualifies, sortAsc, List.insertionSort,
      List.orderedInsert, List.filter]
  · norm_num [searchEbayParts, fourListings, compatQualifies, sortAsc,
      toListing, List.insertionSort, List.orderedInsert, List.filter]

/-- C6 (amended): for a non-empty set of qualifying listings,
`searchEbayParts` returns `price_low` = the minimum qualifying price,
`price_high` = the maximum, and `price_median` = the element at index
`⌊count / 2⌋` of the ascending-sorted price list — the exact middle for
odd counts but the *upper* of the two middle elements for even counts. -/
theorem c6_searchEbayParts_reduction (items : List EbayItemSummary)
    (partName : String) (year : ℤ) (make model : String)
    (trim : Option String)
    (hne : items.filter compatQualifies ≠ []) :
    ∃ r, searchEbayParts (some items) partName year make model trim =
        some r ∧
      r.results_count = (items.filter compatQualifies).length ∧
      (r.price_low ∈ (items.filter compatQualifies).map
          (fun i => i.priceValue) ∧
        ∀ x ∈ (items.filter compatQualifies).map (fun i => i.priceValue),
          r.price_low ≤ x) ∧
      (r.price_high ∈ (items.filter compatQualifies).map
          (fun i => i.priceValue) ∧
        ∀ x ∈ (items.filter compatQualifies).map (fun i => i.priceValue),
          x ≤ r.price_high) ∧
      (r.price_median = (sortAsc ((items.filter compatQualifies).map
            fun i => i.priceValue)).getD
          (((items.filter compatQualifies).map
            fun i => i.priceValue).length / 2) 0 ∧
        r.price_median ∈ (items.filter compatQualifies).map
          (fun i => i.priceValue)) := by
  have hprices : (((items.filter compatQualifies).map toListing).map
      fun l => l.price) =
      (items.filter compatQualifies).map fun i => i.priceValue := by
    rw [List.map_map]
    rfl
  have hIsEmpty : items.isEmpty = false := by
    cases items with
    | nil => simp at hne
    | cons a as => rfl
  have hLne : ((items.filter compatQualifies).map toListing) ≠ [] := by
    simpa using hne
  have hLEmpty : ((items.filter compatQualifies).map toListing).isEmpty =
      false := by
    simpa [List.isEmpty_iff] using hLne
  have hval : searchEbayParts (some items) partName year make model trim =
      some
        { source := "ebay"
          query := s!"{partName} {year} {make} {model}"
          results_count := ((items.filter compatQualifies).map
            toListing).length
          price_low := (sortAsc ((items.filter compatQualifies).map
            fun i => i.priceValue)).getD 0 0
          price_median := (sortAsc ((items.filter compatQualifies).map
              fun i => i.priceValue)).getD
            ((sortAsc ((items.filter compatQualifies).map
              fun i => i.priceValue)).length / 2) 0
          price_high := (sortAsc ((items.filter compatQualifies).map
              fun i => i.priceValue)).getD
            ((sortAsc ((items.filter compatQualifies).map
              fun i => i.priceValue)).length - 1) 0
          sample_listings := ((items.filter compatQualifies).map
            toListing).take 5 } := by
    simp only [searchEbayParts, hIsEmpty, hLEmpty, Bool.false_eq_true,
      if_false, hprices]
  set ps := (items.filter compatQualifies).map fun i => i.priceValue
    with hps
  have hpsne : ps ≠ [] := by simpa [hps] using hne
  have hpslen : 0 < ps.length := List.length_pos.mpr hpsne
  have hperm : (sortAsc ps).Perm ps := sortAsc_perm ps
  have hsorted := sortAsc_sorted ps
  have hslen : (sortAsc ps).length = ps.length := hperm.length_eq
  have hslen0 : 0 < (sortAsc ps).length := by rw [hslen]; exact hpslen
  refine ⟨_, hval, ?_, ⟨?_, ?_⟩, ⟨?_, ?_⟩, ?_, ?_⟩
  · simp [List.length_map]
  · exact hperm.mem_iff.mp (getD_mem hslen0 0)
  · intro x hx
    exact sorted_first_le hsorted x (hperm.mem_iff.mpr hx)
  · refine hperm.mem_iff.mp (getD_mem ?_ 0)
    exact Nat.sub_lt hslen0 (by norm_num)
  · intro x hx
    exact sorted_le_last hsorted x (hperm.mem_iff.mpr hx)
  · rw [hslen]
  · refine hperm.mem_iff.mp (getD_mem ?_ 0)
    rw [hslen]
    exact Nat.div_lt_self hpslen (by norm_num)

/-- Witness for the amended C6 at the four concrete listings: low 90,
high 130, median 110 (index `4 / 2 = 2` of the sorted list). -/
theorem c6_witness :
    fourListings.filter compatQualifies ≠ [] ∧
      ∃ r, searchEbayParts (some fourListings) "front bumper cover" 2018
          "Toyota" "Camry" none = some r ∧
        r.results_count = (fourListings.filter compatQualifies).length ∧
        (r.price_low ∈ (fourListings.filter compatQualifies).map
            (fun i => i.priceValue) ∧
          ∀ x ∈ (fourListings.filter compatQualifies).map
            (fun i => i.priceValue), r.price_low ≤ x) ∧
        (r.price_high ∈ (fourListings.filter compatQualifies).map
            (fun i => i.priceValue) ∧
          ∀ x ∈ (fourListings.filter compatQualifies).map
            (fun i => i.priceValue), x ≤ r.price_high) ∧
        (r.price_median = (sortAsc ((fourListings.filter
              compatQualifies).map fun i => i.priceValue)).getD
            (((fourListings.filter compatQualifies).map
              fun i => i.priceValue).length / 2) 0 ∧
          r.price_median ∈ (fourListings.filter compatQualifies).map
            (fun i => i.priceValue)) :=
  ⟨by decide, c6_searchEbayParts_reduction fourListings
    "front bumper cover" 2018 "Toyota" "Camry" none (by decide)⟩
